import Mathlib

/-!
Shallow embedding of the claim-and-sweep script (src/src/index.js) and
verification of its specification.

Modelling conventions:
- ethers `bigint` values become `Nat` (all quantities in the script are
  non-negative; `(x * 120n) / 100n` is truncating division on both sides).
- `feeData` fields are `bigint | null` in ethers; they become `Option Nat`.
  JavaScript truthiness on such a field (`if (feeData.maxFeePerGas && ...)`)
  is `truthy`: `null` (= `none`) and `0n` (= `some 0`) are falsy.
- Network effects are passed in as oracle arguments: the settle/txFunc
  argument models `signer.sendTransaction`/contract call followed by
  `tx.wait()`, returning the settlement receipt.
- Each transfer function returns, besides its result
  (`Except` models a thrown error; `Option Receipt` models `null` vs a
  receipt), the list of transaction requests it handed to the network,
  so that "no transaction is submitted" is expressible.
- The two `while (true)` loops of `main` are embedded as fuel-bounded
  event-trace generators over error-free oracle runs.
-/

/-- Fee-market snapshot as returned by `provider.getFeeData()`: each field is
`bigint | null` in ethers, embedded as `Option Nat`. -/
structure FeeData where
  maxFeePerGas : Option Nat
  maxPriorityFeePerGas : Option Nat
  gasPrice : Option Nat
deriving DecidableEq, Repr

/-- JavaScript truthiness of a `bigint | null` value: `null` and `0n` are
falsy, every other bigint is truthy. -/
def truthy : Option Nat → Bool
  | none => false
  | some v => v != 0

/-- The guard `feeData.maxFeePerGas && feeData.maxPriorityFeePerGas` used in
both `sendWithDynamicGas` and `transferAllNativeMinusGas`. -/
def eip1559Mode (fd : FeeData) : Bool :=
  truthy fd.maxFeePerGas && truthy fd.maxPriorityFeePerGas

/-- The fee escalation `(x * 120n) / 100n` applied to every observed fee
field (integer arithmetic, truncating division). -/
def adjusted (v : Nat) : Nat :=
  v * 120 / 100

/-- A derived fee offer: either priority-style (EIP-1559 pair) or flat-style
(legacy gas price). -/
inductive FeeOffer where
  | priority (maxFee maxPriority : Nat)
  | flat (price : Nat)
deriving DecidableEq, Repr

/-- The per-unit price a native sweep reserves against: the max-fee field of
a priority-style offer, else the flat price. -/
def FeeOffer.pricePerUnit : FeeOffer → Nat
  | .priority maxFee _ => maxFee
  | .flat price => price

/-- The fee-derivation conditional shared by `sendWithDynamicGas`
(lines 46-55) and `transferAllNativeMinusGas` (lines 108-118), as an
estimator from a snapshot to an offer: escalate the EIP-1559 pair when both
fields are truthy, else escalate the flat `gasPrice` when truthy, else the
error thrown by the native path (`无法获取gas价格`). -/
def feeOfferOf (fd : FeeData) : Except String FeeOffer :=
  if eip1559Mode fd then
    .ok (.priority (adjusted (fd.maxFeePerGas.getD 0))
      (adjusted (fd.maxPriorityFeePerGas.getD 0)))
  else if truthy fd.gasPrice then
    .ok (.flat (adjusted (fd.gasPrice.getD 0)))
  else
    .error "无法获取gas价格"

/-- A transaction request / overrides object: only the fields the script
ever sets. An unset field is `none`. -/
structure TxRequest where
  toAddr : Option String := none
  value : Option Nat := none
  maxFeePerGas : Option Nat := none
  maxPriorityFeePerGas : Option Nat := none
  gasPrice : Option Nat := none
  type : Option Nat := none
deriving DecidableEq, Repr

/-- Settlement receipt as used by the script: `receipt.status` is `1` on
success. -/
structure Receipt where
  transactionHash : String
  status : Nat
deriving DecidableEq, Repr

/-- The `overrides` object built by `sendWithDynamicGas` (lines 46-55):
escalated EIP-1559 pair when both fields are truthy, else the escalated
flat gas price when truthy, else empty (no error, no fee fields). -/
def overridesOf (fd : FeeData) : TxRequest :=
  if eip1559Mode fd then
    { maxFeePerGas := some (adjusted (fd.maxFeePerGas.getD 0)),
      maxPriorityFeePerGas := some (adjusted (fd.maxPriorityFeePerGas.getD 0)) }
  else if truthy fd.gasPrice then
    { gasPrice := some (adjusted (fd.gasPrice.getD 0)) }
  else
    {}

/-- `sendWithDynamicGas(txFunc, description)` (lines 42-64): build the fee
overrides from a fresh fee snapshot, call `txFunc(overrides)`, await the
receipt, and throw `description + " 失败"` unless `receipt.status === 1`.
`txFunc` models submission plus `tx.wait()`. The second component records
the single request handed to the network. -/
def sendWithDynamicGas (fd : FeeData) (description : String)
    (txFunc : TxRequest → Receipt) : Except String Receipt × List TxRequest :=
  let overrides := overridesOf fd
  let receipt := txFunc overrides
  if receipt.status ≠ 1 then (.error (description ++ " 失败"), [overrides])
  else (.ok receipt, [overrides])

/-- `transferAllToken` (lines 75-86): read the token balance; if zero,
return `null` and submit nothing; else submit `transfer(to, bal, overrides)`
through `sendWithDynamicGas`. The submission record pairs the full token
amount with the overrides; `settle bal` models the contract call plus
`tx.wait()`. The `to` argument is consumed by the contract call itself and
is part of the oracle. -/
def transferAllToken (bal : Nat) (fd : FeeData) (symbol : String)
    (settle : Nat → TxRequest → Receipt) :
    Except String (Option Receipt) × List (Nat × TxRequest) :=
  if bal = 0 then (.ok none, [])
  else
    let r := sendWithDynamicGas fd ("转移" ++ symbol) (settle bal)
    (r.1.map some, r.2.map fun ov => (bal, ov))

/-- `transferAllNativeMinusGas(signer, to)` (lines 88-145): read the native
balance (`balance = 0` returns `null`); estimate gas with fallback `21000`
on failure (`estimateGas = none` models a failed `provider.estimateGas`);
derive the escalated fee, throwing `无法获取gas价格` when no fee field is
truthy; return `null` when `balance <= fee`; else submit a transaction with
`value = balance - fee` carrying the escalated fee fields (`type = 2` in the
EIP-1559 case) and throw `转移原生币失败` unless its status is `1`.

The source evaluates the same truthiness conditions twice on the one
immutable snapshot — once to compute `fee` (lines 108-118) and once to set
the request fields (lines 127-136) — so the two chains are merged branch by
branch here. -/
def transferAllNativeMinusGas (toAddr : String) (balance : Nat) (feeData : FeeData)
    (estimateGas : Option Nat) (settle : TxRequest → Receipt) :
    Except String (Option Receipt) × List TxRequest :=
  if balance = 0 then (.ok none, [])
  else
    let gasLimit := estimateGas.getD 21000
    if eip1559Mode feeData then
      let adjMaxFee := adjusted (feeData.maxFeePerGas.getD 0)
      let fee := gasLimit * adjMaxFee
      if balance ≤ fee then (.ok none, [])
      else
        let txReq : TxRequest :=
          { toAddr := some toAddr, value := some (balance - fee),
            maxFeePerGas := some adjMaxFee,
            maxPriorityFeePerGas := some (adjusted (feeData.maxPriorityFeePerGas.getD 0)),
            type := some 2 }
        let receipt := settle txReq
        if receipt.status ≠ 1 then (.error "转移原生币失败", [txReq])
        else (.ok (some receipt), [txReq])
    else if truthy feeData.gasPrice then
      let adjGasPrice := adjusted (feeData.gasPrice.getD 0)
      let fee := gasLimit * adjGasPrice
      if balance ≤ fee then (.ok none, [])
      else
        let txReq : TxRequest :=
          { toAddr := some toAddr, value := some (balance - fee),
            gasPrice := some adjGasPrice }
        let receipt := settle txReq
        if receipt.status ≠ 1 then (.error "转移原生币失败", [txReq])
        else (.ok (some receipt), [txReq])
    else
      (.error "无法获取gas价格", [])

/-- Observable events of a run of `main`'s two loops (lines 162-201): one
claim attempt, one `wait(ms)` call, one token-balance poll, one token sweep,
one native sweep (`found` records whether the native sweep moved anything,
i.e. returned a receipt rather than `null`). -/
inductive Ev where
  | claim
  | wait (ms : Nat)
  | checkBalance
  | sweepToken
  | sweepNative (found : Bool)
deriving DecidableEq, Repr

/-- Events of the opportunistic block after a failed claim attempt
(lines 175-184): always poll the token balance; when it is positive, run the
sweep pass (token transfer, then native transfer). -/
def oppEvents (balPos nf : Bool) : List Ev :=
  Ev.checkBalance :: (if balPos then [Ev.sweepToken, Ev.sweepNative nf] else [])

/-- Phase-1 `while (true)` loop of `main` (lines 162-184) as a fuel-bounded
trace generator over an error-free oracle run. `claimOk n` tells whether the
claim attempt numbered `n` settles successfully; `tokenBal n` is the token
balance polled after failed attempt `n`; `nf` is whether native sweeps find
anything. A successful attempt breaks out immediately (trace ends in
`Ev.claim`); a failed one is followed by `wait(5000)` and the opportunistic
block. `none` means the fuel ran out before the claim succeeded. -/
def claimLoop (claimOk : Nat → Bool) (tokenBal : Nat → Nat) (nf : Bool) :
    Nat → Nat → Option (List Ev)
  | 0, _ => none
  | fuel + 1, n =>
    if claimOk n then some [Ev.claim]
    else
      (claimLoop claimOk tokenBal nf fuel (n + 1)).map
        fun rest => Ev.claim :: Ev.wait 5000 ::
          (oppEvents (decide (0 < tokenBal n)) nf ++ rest)

/-- Phase-2 `while (true)` loop of `main` (lines 188-201) as a fuel-bounded
trace generator over an error-free oracle run: poll the token balance with
no delay until it is positive, then run exactly one sweep pass (token, then
native) and break, whatever the native sweep found. -/
def monitorLoop (tokenBal : Nat → Nat) (nf : Bool) :
    Nat → Nat → Option (List Ev)
  | 0, _ => none
  | fuel + 1, i =>
    if 0 < tokenBal i then
      some [Ev.checkBalance, Ev.sweepToken, Ev.sweepNative nf]
    else
      (monitorLoop tokenBal nf fuel (i + 1)).map fun rest => Ev.checkBalance :: rest

/-- The sequencing of `main` (lines 147-202): the phase-1 claim loop runs to
completion, then the phase-2 monitor loop runs; the full trace is their
concatenation. `bal1`/`bal2` are the token balances polled in each phase. -/
def mainTrace (claimOk : Nat → Bool) (bal1 bal2 : Nat → Nat) (nf : Bool)
    (fuel1 fuel2 : Nat) : Option (List Ev) :=
  match claimLoop claimOk bal1 nf fuel1 0 with
  | none => none
  | some t1 =>
    match monitorLoop bal2 nf fuel2 0 with
    | none => none
    | some t2 => some (t1 ++ t2)

/-- Number of events in a trace satisfying `p`. -/
def countEv (p : Ev → Bool) (t : List Ev) : Nat :=
  (t.filter p).length

/-- Recogniser for claim-attempt events. -/
def isClaimEv : Ev → Bool
  | Ev.claim => true
  | _ => false

/-- Recogniser for wait events. -/
def isWaitEv : Ev → Bool
  | Ev.wait _ => true
  | _ => false

/-- Recogniser for balance-poll events. -/
def isCheckEv : Ev → Bool
  | Ev.checkBalance => true
  | _ => false

/-- Recogniser for token-sweep events. -/
def isSweepTokenEv : Ev → Bool
  | Ev.sweepToken => true
  | _ => false

/-- Unfolding equation for `claimLoop` at positive fuel. -/
theorem claimLoop_succ (c : Nat → Bool) (tb : Nat → Nat) (nf : Bool) (fuel n : Nat) :
    claimLoop c tb nf (fuel + 1) n =
      if c n then some [Ev.claim]
      else (claimLoop c tb nf fuel (n + 1)).map
        (fun rest => Ev.claim :: Ev.wait 5000 ::
          (oppEvents (decide (0 < tb n)) nf ++ rest)) := rfl

/-- Unfolding equation for `monitorLoop` at positive fuel. -/
theorem monitorLoop_succ (tb : Nat → Nat) (nf : Bool) (fuel i : Nat) :
    monitorLoop tb nf (fuel + 1) i =
      if 0 < tb i then
        some [Ev.checkBalance, Ev.sweepToken, Ev.sweepNative nf]
      else (monitorLoop tb nf fuel (i + 1)).map
        (fun rest => Ev.checkBalance :: rest) := rfl

/-- The opportunistic block contains no claim attempts. -/
theorem oppEvents_filter_claim (b nf : Bool) :
    (oppEvents b nf).filter isClaimEv = [] := by
  cases b <;> rfl

/-- The opportunistic block contains no wait events. -/
theorem oppEvents_filter_wait (b nf : Bool) :
    (oppEvents b nf).filter isWaitEv = [] := by
  cases b <;> rfl

/-- No wait event occurs in the opportunistic block. -/
theorem oppEvents_wait_not_mem (b nf : Bool) (ms : Nat) :
    Ev.wait ms ∉ oppEvents b nf := by
  cases b <;> simp [oppEvents]

/-- The monitor loop never attempts a claim. -/
theorem monitorLoop_no_claim (tb : Nat → Nat) (nf : Bool) :
    ∀ (fuel i : Nat) (t : List Ev), monitorLoop tb nf fuel i = some t →
      countEv isClaimEv t = 0 := by
  intro fuel
  induction fuel with
  | zero => intro i t h; exact absurd h (by simp [monitorLoop])
  | succ fuel ih =>
    intro i t h
    rw [monitorLoop_succ] at h
    by_cases hb : 0 < tb i
    · rw [if_pos hb] at h
      cases h
      rfl
    · rw [if_neg hb] at h
      cases hm : monitorLoop tb nf fuel (i + 1) with
      | none => rw [hm] at h; simp at h
      | some rest =>
        rw [hm] at h
        simp only [Option.map_some'] at h
        cases h
        have := ih (i + 1) rest hm
        simpa [countEv, List.filter_cons, isClaimEv] using this

/-- C2 (amended: the fields must be populated with nonzero values, because
JavaScript truthiness treats a `0n` field like an absent one): for every fee
snapshot whose max-fee and max-priority-fee fields hold nonzero values `a`
and `b`, the derived offer is priority-style and carries
`floor(a*120/100)` and `floor(b*120/100)` in the same field positions; for
every snapshot with only a nonzero flat price `p`, the offer is flat-style
and carries `floor(p*120/100)`. -/
theorem c2_fee_escalation :
    (∀ (fd : FeeData) (a b : Nat), fd.maxFeePerGas = some a →
      fd.maxPriorityFeePerGas = some b → 0 < a → 0 < b →
      feeOfferOf fd = .ok (.priority (a * 120 / 100) (b * 120 / 100))) ∧
    (∀ (fd : FeeData) (p : Nat), fd.maxFeePerGas = none →
      fd.maxPriorityFeePerGas = none → fd.gasPrice = some p → 0 < p →
      feeOfferOf fd = .ok (.flat (p * 120 / 100))) := by
  constructor
  · intro fd a b ha hb hpa hpb
    have ha' : a ≠ 0 := Nat.pos_iff_ne_zero.mp hpa
    have hb' : b ≠ 0 := Nat.pos_iff_ne_zero.mp hpb
    simp [feeOfferOf, eip1559Mode, truthy, ha, hb, ha', hb', adjusted]
  · intro fd p h1 h2 h3 hp
    have hp' : p ≠ 0 := Nat.pos_iff_ne_zero.mp hp
    simp [feeOfferOf, eip1559Mode, truthy, h1, h2, h3, hp', adjusted]

/-- Witness for `c2_fee_escalation` at the concrete snapshots
`(100, 10, -)` and `(-, -, 7)`. -/
theorem c2_fee_escalation_witness :
    feeOfferOf ⟨some 100, some 10, none⟩ =
      .ok (.priority (100 * 120 / 100) (10 * 120 / 100)) ∧
    feeOfferOf ⟨none, none, some 7⟩ = .ok (.flat (7 * 120 / 100)) :=
  ⟨c2_fee_escalation.1 ⟨some 100, some 10, none⟩ 100 10 rfl rfl (by decide) (by decide),
   c2_fee_escalation.2 ⟨none, none, some 7⟩ 7 rfl rfl rfl (by decide)⟩

/-- C2 counterexample: the snapshot whose priority pair is populated with
the values `0` and `5` (and whose flat price is `7`) derives the flat-style
offer `flat 8`, not the priority-style escalation `priority 0 6` the claim
requires — JavaScript truthiness treats the populated `0n` field as
absent. -/
theorem c2_zero_field_counterexample :
    feeOfferOf ⟨some 0, some 5, some 7⟩ = .ok (.flat 8) ∧
    FeeOffer.flat 8 ≠ .priority (0 * 120 / 100) (5 * 120 / 100) :=
  ⟨rfl, by decide⟩

/-- C3 (amended: only the native sweep fails on a fee-less snapshot; the
generic dynamic-gas path applies no fee fields and still submits): for a
snapshot with no fee field populated, the fee derivation yields the
`无法获取gas价格` error, the native sweep with positive balance throws it and
submits nothing, while `sendWithDynamicGas` still hands the network exactly
one request with every fee field unset. -/
theorem c3_fee_unavailable (fd : FeeData) (h1 : fd.maxFeePerGas = none)
    (h2 : fd.maxPriorityFeePerGas = none) (h3 : fd.gasPrice = none) :
    feeOfferOf fd = .error "无法获取gas价格" ∧
    (∀ (toAddr : String) (b : Nat) (g : Option Nat) (settle : TxRequest → Receipt),
      0 < b →
      transferAllNativeMinusGas toAddr b fd g settle = (.error "无法获取gas价格", [])) ∧
    (∀ (d : String) (txFunc : TxRequest → Receipt),
      (sendWithDynamicGas fd d txFunc).2 = [{}]) := by
  obtain ⟨mf, mp, gp⟩ := fd
  simp only at h1 h2 h3
  subst h1; subst h2; subst h3
  refine ⟨rfl, ?_, ?_⟩
  · intro toAddr b g settle hb
    have hb' : b ≠ 0 := Nat.pos_iff_ne_zero.mp hb
    simp [transferAllNativeMinusGas, eip1559Mode, truthy, hb']
  · intro d txFunc
    simp [sendWithDynamicGas, overridesOf, eip1559Mode, truthy, apply_ite Prod.snd]

/-- Witness for `c3_fee_unavailable` at the all-`none` snapshot. -/
theorem c3_fee_unavailable_witness :
    feeOfferOf ⟨none, none, none⟩ = .error "无法获取gas价格" ∧
    transferAllNativeMinusGas "r" 5 ⟨none, none, none⟩ none (fun _ => ⟨"h", 1⟩) =
      (.error "无法获取gas价格", []) ∧
    (sendWithDynamicGas ⟨none, none, none⟩ "x" (fun _ => ⟨"h", 1⟩)).2 = [{}] :=
  ⟨(c3_fee_unavailable ⟨none, none, none⟩ rfl rfl rfl).1,
   (c3_fee_unavailable ⟨none, none, none⟩ rfl rfl rfl).2.1 "r" 5 none _ (by decide),
   (c3_fee_unavailable ⟨none, none, none⟩ rfl rfl rfl).2.2 "x" _⟩

/-- C3 counterexample: on the snapshot with no fee field populated, the
dynamic-gas submission path used for claim and token transactions does not
fail — it submits exactly one transaction, with empty overrides, and the
call succeeds. -/
theorem c3_empty_snapshot_still_submits :
    (sendWithDynamicGas ⟨none, none, none⟩ "领取claim" (fun _ => ⟨"0xabc", 1⟩)).2 =
      [({} : TxRequest)] ∧
    (sendWithDynamicGas ⟨none, none, none⟩ "领取claim" (fun _ => ⟨"0xabc", 1⟩)).1 =
      .ok ⟨"0xabc", 1⟩ :=
  ⟨rfl, rfl⟩

/-- C4: a token sweep with zero balance returns `null` (NothingToSweep) and
submits nothing; with any positive balance it submits exactly one transfer
whose amount is the entire balance, with no fee reservation subtracted. -/
theorem c4_token_sweep (fd : FeeData) (symbol : String)
    (settle : Nat → TxRequest → Receipt) :
    transferAllToken 0 fd symbol settle = (.ok none, []) ∧
    ∀ bal : Nat, 0 < bal →
      (transferAllToken bal fd symbol settle).2 = [(bal, overridesOf fd)] := by
  refine ⟨rfl, ?_⟩
  intro bal hb
  have hb' : bal ≠ 0 := Nat.pos_iff_ne_zero.mp hb
  simp [transferAllToken, hb', sendWithDynamicGas, apply_ite Prod.snd]

/-- Witness for `c4_token_sweep`: balance `500` is transferred in full. -/
theorem c4_token_sweep_witness :
    transferAllToken 0 ⟨none, none, some 5⟩ "TEG" (fun _ _ => ⟨"h", 1⟩) = (.ok none, []) ∧
    (transferAllToken 500 ⟨none, none, some 5⟩ "TEG" (fun _ _ => ⟨"h", 1⟩)).2 =
      [(500, overridesOf ⟨none, none, some 5⟩)] :=
  ⟨(c4_token_sweep ⟨none, none, some 5⟩ "TEG" (fun _ _ => ⟨"h", 1⟩)).1,
   (c4_token_sweep ⟨none, none, some 5⟩ "TEG" (fun _ _ => ⟨"h", 1⟩)).2 500 (by decide)⟩

/-- C5: when gas estimation fails (`estimateGas = none`), the native sweep
behaves exactly as if the estimate had been the fixed fallback of `21000`
units — it proceeds rather than aborting. -/
theorem c5_gas_estimate_fallback (toAddr : String) (b : Nat) (fd : FeeData)
    (settle : TxRequest → Receipt) :
    transferAllNativeMinusGas toAddr b fd none settle =
      transferAllNativeMinusGas toAddr b fd (some 21000) settle := rfl

/-- C1: for a native sweep with balance `b`, resource estimate `g` and the
escalated fee offer derived from the snapshot, the reserve is
`g * offer.pricePerUnit` (the priority offer's max-fee field, else the flat
price); if `b ≤ reserve` the sweep returns `null` (NothingToSweep) and
submits nothing, else it submits exactly one transaction whose value is
exactly `b - reserve`. -/
theorem c1_native_reserve (toAddr : String) (b g : Nat) (fd : FeeData)
    (offer : FeeOffer) (settle : TxRequest → Receipt)
    (hoffer : feeOfferOf fd = .ok offer) :
    (b ≤ g * offer.pricePerUnit →
      transferAllNativeMinusGas toAddr b fd (some g) settle = (.ok none, [])) ∧
    (g * offer.pricePerUnit < b →
      ∃ req, (transferAllNativeMinusGas toAddr b fd (some g) settle).2 = [req] ∧
        req.value = some (b - g * offer.pricePerUnit)) := by
  by_cases heip : eip1559Mode fd = true
  · rw [feeOfferOf, if_pos heip] at hoffer
    simp only [Except.ok.injEq] at hoffer
    subst hoffer
    simp only [FeeOffer.pricePerUnit]
    constructor
    · intro hle
      by_cases h0 : b = 0
      · subst h0; rfl
      · simp [transferAllNativeMinusGas, h0, heip, hle]
    · intro hlt
      have h0 : b ≠ 0 := by omega
      have h2 : (transferAllNativeMinusGas toAddr b fd (some g) settle).2 =
          [⟨some toAddr, some (b - g * adjusted (fd.maxFeePerGas.getD 0)),
            some (adjusted (fd.maxFeePerGas.getD 0)),
            some (adjusted (fd.maxPriorityFeePerGas.getD 0)), none, some 2⟩] := by
        simp [transferAllNativeMinusGas, h0, heip, Nat.not_le.mpr hlt,
          apply_ite Prod.snd]
      exact ⟨_, h2, rfl⟩
  · by_cases hgp : truthy fd.gasPrice = true
    · rw [feeOfferOf, if_neg heip, if_pos hgp] at hoffer
      simp only [Except.ok.injEq] at hoffer
      subst hoffer
      simp only [FeeOffer.pricePerUnit]
      constructor
      · intro hle
        by_cases h0 : b = 0
        · subst h0; rfl
        · simp [transferAllNativeMinusGas, h0, heip, hgp, hle]
      · intro hlt
        have h0 : b ≠ 0 := by omega
        have h2 : (transferAllNativeMinusGas toAddr b fd (some g) settle).2 =
            [⟨some toAddr, some (b - g * adjusted (fd.gasPrice.getD 0)), none, none,
              some (adjusted (fd.gasPrice.getD 0)), none⟩] := by
          simp [transferAllNativeMinusGas, h0, heip, hgp, Nat.not_le.mpr hlt,
            apply_ite Prod.snd]
        exact ⟨_, h2, rfl⟩
    · rw [feeOfferOf, if_neg heip, if_neg hgp] at hoffer
      exact absurd hoffer (by simp)

/-- Witness for `c1_native_reserve` at the realistic magnitudes from the
specification: balance `10^18`, estimate `21000`, snapshot pair
`(2*10^9, 10^9)`, so the reserve is `21000 * 2400000000 = 4.2*10^13 * 1.2`;
and at balance `10`, which is below the reserve. -/
theorem c1_native_reserve_witness :
    (∃ req, (transferAllNativeMinusGas "r" 1000000000000000000
        ⟨some 2000000000, some 1000000000, none⟩ (some 21000)
        (fun _ => ⟨"h", 1⟩)).2 = [req] ∧
      req.value = some (1000000000000000000 -
        21000 * (FeeOffer.priority 2400000000 1200000000).pricePerUnit)) ∧
    transferAllNativeMinusGas "r" 10 ⟨some 2000000000, some 1000000000, none⟩
      (some 21000) (fun _ => ⟨"h", 1⟩) = (.ok none, []) :=
  ⟨(c1_native_reserve "r" 1000000000000000000 21000
      ⟨some 2000000000, some 1000000000, none⟩ (.priority 2400000000 1200000000)
      (fun _ => ⟨"h", 1⟩) rfl).2 (by decide),
   (c1_native_reserve "r" 10 21000
      ⟨some 2000000000, some 1000000000, none⟩ (.priority 2400000000 1200000000)
      (fun _ => ⟨"h", 1⟩) rfl).1 (by decide)⟩

/-- C6 (amended: the fee offer's fields are applied onto the request on
every submission path; only the native sweep marks the EIP-1559 format
version, while the generic dynamic-gas path never sets the transaction
type): every dynamic-gas submission hands the network exactly the computed
fee overrides, whose `type` field is always unset; every native-sweep
submission under an EIP-1559 snapshot carries the escalated fee pair and
`type = 2`; every native-sweep submission under a legacy snapshot carries
the escalated flat gas price and no format marker. -/
theorem c6_fee_application :
    (∀ (fd : FeeData) (d : String) (txFunc : TxRequest → Receipt),
      (sendWithDynamicGas fd d txFunc).2 = [overridesOf fd] ∧
      (overridesOf fd).type = none) ∧
    (∀ (toAddr : String) (b : Nat) (fd : FeeData) (g : Option Nat)
      (settle : TxRequest → Receipt) (req : TxRequest),
      eip1559Mode fd = true →
      (transferAllNativeMinusGas toAddr b fd g settle).2 = [req] →
      req.maxFeePerGas = some (adjusted (fd.maxFeePerGas.getD 0)) ∧
      req.maxPriorityFeePerGas = some (adjusted (fd.maxPriorityFeePerGas.getD 0)) ∧
      req.type = some 2) ∧
    (∀ (toAddr : String) (b : Nat) (fd : FeeData) (g : Option Nat)
      (settle : TxRequest → Receipt) (req : TxRequest),
      eip1559Mode fd = false → truthy fd.gasPrice = true →
      (transferAllNativeMinusGas toAddr b fd g settle).2 = [req] →
      req.gasPrice = some (adjusted (fd.gasPrice.getD 0)) ∧
      req.type = none) := by
  refine ⟨?_, ?_, ?_⟩
  · intro fd d txFunc
    constructor
    · simp [sendWithDynamicGas, apply_ite Prod.snd]
    · simp [overridesOf, apply_ite TxRequest.type]
  · intro toAddr b fd g settle req heip hreq
    by_cases h0 : b = 0
    · simp [transferAllNativeMinusGas, h0] at hreq
    · by_cases hle : b ≤ g.getD 21000 * adjusted (fd.maxFeePerGas.getD 0)
      · simp [transferAllNativeMinusGas, h0, heip, hle] at hreq
      · have h2 : req = ⟨some toAddr,
            some (b - g.getD 21000 * adjusted (fd.maxFeePerGas.getD 0)),
            some (adjusted (fd.maxFeePerGas.getD 0)),
            some (adjusted (fd.maxPriorityFeePerGas.getD 0)), none, some 2⟩ := by
          have := hreq
          simp [transferAllNativeMinusGas, h0, heip, hle, apply_ite Prod.snd] at this
          exact this.symm
        subst h2
        exact ⟨rfl, rfl, rfl⟩
  · intro toAddr b fd g settle req heip hgp hreq
    have heip' : ¬ eip1559Mode fd = true := by simp [heip]
    by_cases h0 : b = 0
    · simp [transferAllNativeMinusGas, h0] at hreq
    · by_cases hle : b ≤ g.getD 21000 * adjusted (fd.gasPrice.getD 0)
      · simp [transferAllNativeMinusGas, h0, heip', hgp, hle] at hreq
      · have h2 : req = ⟨some toAddr,
            some (b - g.getD 21000 * adjusted (fd.gasPrice.getD 0)), none, none,
            some (adjusted (fd.gasPrice.getD 0)), none⟩ := by
          have := hreq
          simp [transferAllNativeMinusGas, h0, heip', hgp, hle,
            apply_ite Prod.snd] at this
          exact this.symm
        subst h2
        exact ⟨rfl, rfl⟩

/-- Witness for `c6_fee_application` at a concrete EIP-1559 snapshot and a
concrete legacy snapshot. -/
theorem c6_fee_application_witness :
    ((sendWithDynamicGas ⟨some 100, some 10, none⟩ "x"
        (fun _ => ⟨"h", 1⟩)).2 = [overridesOf ⟨some 100, some 10, none⟩] ∧
      (overridesOf ⟨some 100, some 10, none⟩).type = none) ∧
    ((⟨some "r", some 999949600000000000, some 2400000000, some 1200000000,
        none, some 2⟩ : TxRequest).maxFeePerGas =
        some (adjusted ((⟨some 2000000000, some 1000000000, none⟩ : FeeData).maxFeePerGas.getD 0)) ∧
      (⟨some "r", some 999949600000000000, some 2400000000, some 1200000000,
        none, some 2⟩ : TxRequest).maxPriorityFeePerGas =
        some (adjusted ((⟨some 2000000000, some 1000000000, none⟩ : FeeData).maxPriorityFeePerGas.getD 0)) ∧
      (⟨some "r", some 999949600000000000, some 2400000000, some 1200000000,
        none, some 2⟩ : TxRequest).type = some 2) ∧
    ((⟨some "r", some 90, none, none, some 1, none⟩ : TxRequest).gasPrice =
        some (adjusted ((⟨none, none, some 1⟩ : FeeData).gasPrice.getD 0)) ∧
      (⟨some "r", some 90, none, none, some 1, none⟩ : TxRequest).type = none) :=
  ⟨c6_fee_application.1 ⟨some 100, some 10, none⟩ "x" (fun _ => ⟨"h", 1⟩),
   c6_fee_application.2.1 "r" 1000000000000000000 ⟨some 2000000000, some 1000000000, none⟩
     (some 21000) (fun _ => ⟨"h", 1⟩) _ rfl rfl,
   c6_fee_application.2.2 "r" 100 ⟨none, none, some 1⟩ (some 10)
     (fun _ => ⟨"h", 1⟩) _ rfl rfl rfl⟩

/-- C6 counterexample: with the EIP-1559 snapshot `(100, 10, -)` the
dynamic-gas path submits a request carrying the escalated priority fee pair
but with its transaction-format version (`type`) unset, refuting the claim
that every priority-style submission marks the fee-market-aware format. -/
theorem c6_type_unset_counterexample :
    (sendWithDynamicGas ⟨some 100, some 10, none⟩ "领取claim"
      (fun _ => ⟨"0xabc", 1⟩)).2 =
      [{ maxFeePerGas := some 120, maxPriorityFeePerGas := some 12 }] ∧
    ({ maxFeePerGas := some 120, maxPriorityFeePerGas := some 12 } : TxRequest).type =
      none :=
  ⟨rfl, rfl⟩

/-- C9: a dynamic-gas submission resolves to the settled receipt exactly
when the ledger reports status `1`, and any non-success settlement is
surfaced as the thrown error `description ++ " 失败"`; likewise the native
sweep, whenever it has submitted a request, succeeds exactly when that
request settles with status `1` and otherwise throws `转移原生币失败`. -/
theorem c9_settlement_status (fd : FeeData) (d toAddr : String)
    (txFunc settle : TxRequest → Receipt) (b : Nat) (g : Option Nat)
    (req : TxRequest)
    (hreq : (transferAllNativeMinusGas toAddr b fd g settle).2 = [req]) :
    ((sendWithDynamicGas fd d txFunc).1 = .ok (txFunc (overridesOf fd)) ↔
      (txFunc (overridesOf fd)).status = 1) ∧
    ((txFunc (overridesOf fd)).status ≠ 1 →
      (sendWithDynamicGas fd d txFunc).1 = .error (d ++ " 失败")) ∧
    ((transferAllNativeMinusGas toAddr b fd g settle).1 = .ok (some (settle req)) ↔
      (settle req).status = 1) ∧
    ((settle req).status ≠ 1 →
      (transferAllNativeMinusGas toAddr b fd g settle).1 = .error "转移原生币失败") := by
  have hnative : transferAllNativeMinusGas toAddr b fd g settle =
      (if (settle req).status ≠ 1 then (.error "转移原生币失败", [req])
       else (.ok (some (settle req)), [req])) := by
    by_cases h0 : b = 0
    · simp [transferAllNativeMinusGas, h0] at hreq
    · by_cases heip : eip1559Mode fd = true
      · by_cases hle : b ≤ g.getD 21000 * adjusted (fd.maxFeePerGas.getD 0)
        · simp [transferAllNativeMinusGas, h0, heip, hle] at hreq
        · have hr : req = ⟨some toAddr,
              some (b - g.getD 21000 * adjusted (fd.maxFeePerGas.getD 0)),
              some (adjusted (fd.maxFeePerGas.getD 0)),
              some (adjusted (fd.maxPriorityFeePerGas.getD 0)), none, some 2⟩ := by
            have := hreq
            simp [transferAllNativeMinusGas, h0, heip, hle, apply_ite Prod.snd] at this
            exact this.symm
          subst hr
          simp [transferAllNativeMinusGas, h0, heip, hle]
      · by_cases hgp : truthy fd.gasPrice = true
        · by_cases hle : b ≤ g.getD 21000 * adjusted (fd.gasPrice.getD 0)
          · simp [transferAllNativeMinusGas, h0, heip, hgp, hle] at hreq
          · have hr : req = ⟨some toAddr,
                some (b - g.getD 21000 * adjusted (fd.gasPrice.getD 0)), none, none,
                some (adjusted (fd.gasPrice.getD 0)), none⟩ := by
              have := hreq
              simp [transferAllNativeMinusGas, h0, heip, hgp, hle,
                apply_ite Prod.snd] at this
              exact this.symm
            subst hr
            simp [transferAllNativeMinusGas, h0, heip, hgp, hle]
        · simp [transferAllNativeMinusGas, h0, heip, hgp] at hreq
  refine ⟨?_, ?_, ?_, ?_⟩
  · by_cases hs : (txFunc (overridesOf fd)).status = 1 <;>
      simp [sendWithDynamicGas, hs]
  · intro hs
    simp [sendWithDynamicGas, hs]
  · by_cases hs : (settle req).status = 1 <;> simp [hnative, hs]
  · intro hs
    simp [hnative, hs]

/-- Witness for `c9_settlement_status` at a concrete legacy snapshot, a
submitting balance, and a successful settlement oracle. -/
theorem c9_settlement_status_witness :
    ((sendWithDynamicGas ⟨none, none, some 1⟩ "d" (fun _ => ⟨"t", 1⟩)).1 =
        .ok ((fun _ => (⟨"t", 1⟩ : Receipt)) (overridesOf ⟨none, none, some 1⟩)) ↔
      ((fun _ => (⟨"t", 1⟩ : Receipt)) (overridesOf ⟨none, none, some 1⟩)).status = 1) ∧
    (((fun _ => (⟨"t", 1⟩ : Receipt)) (overridesOf ⟨none, none, some 1⟩)).status ≠ 1 →
      (sendWithDynamicGas ⟨none, none, some 1⟩ "d" (fun _ => ⟨"t", 1⟩)).1 =
        .error ("d" ++ " 失败")) ∧
    ((transferAllNativeMinusGas "r" 100 ⟨none, none, some 1⟩ (some 10)
        (fun _ => ⟨"h", 1⟩)).1 =
        .ok (some ((fun _ => (⟨"h", 1⟩ : Receipt))
          (⟨some "r", some 90, none, none, some 1, none⟩ : TxRequest))) ↔
      ((fun _ => (⟨"h", 1⟩ : Receipt))
        (⟨some "r", some 90, none, none, some 1, none⟩ : TxRequest)).status = 1) ∧
    (((fun _ => (⟨"h", 1⟩ : Receipt))
        (⟨some "r", some 90, none, none, some 1, none⟩ : TxRequest)).status ≠ 1 →
      (transferAllNativeMinusGas "r" 100 ⟨none, none, some 1⟩ (some 10)
        (fun _ => ⟨"h", 1⟩)).1 = .error "转移原生币失败") :=
  c9_settlement_status ⟨none, none, some 1⟩ "d" "r" (fun _ => ⟨"t", 1⟩)
    (fun _ => ⟨"h", 1⟩) 100 (some 10)
    ⟨some "r", some 90, none, none, some 1, none⟩ rfl

/-- C10: a native sweep with zero balance returns `null` (NothingToSweep)
and submits nothing, for every fee snapshot — in particular the
fee-unavailable error branch of `transferAllNativeMinusGas` is unreachable
when the balance is zero, even on a snapshot with no usable fee field. -/
theorem c10_zero_balance_short_circuit (toAddr : String) (fd : FeeData)
    (g : Option Nat) (settle : TxRequest → Receipt) :
    transferAllNativeMinusGas toAddr 0 fd g settle = (.ok none, []) := rfl

/-- C7: against a claim oracle that fails on attempts `0` and `1` and
succeeds on attempt `2`, the phase-1 loop produces a trace with exactly two
wait events, each of exactly `5000` ms, and exactly three claim attempts
(the last being the success, after which the loop breaks); `main` then runs
the monitor phase, whose trace contains no claim attempt at all. -/
theorem c7_claim_retry (bal1 bal2 : Nat → Nat) (nf : Bool) (fuel1 fuel2 : Nat)
    (t2 : List Ev) (h1 : 3 ≤ fuel1)
    (h2 : monitorLoop bal2 nf fuel2 0 = some t2) :
    ∃ t1, claimLoop (fun n => decide (2 ≤ n)) bal1 nf fuel1 0 = some t1 ∧
      countEv isWaitEv t1 = 2 ∧
      (∀ ms, Ev.wait ms ∈ t1 → ms = 5000) ∧
      countEv isClaimEv t1 = 3 ∧
      countEv isClaimEv t2 = 0 ∧
      mainTrace (fun n => decide (2 ≤ n)) bal1 bal2 nf fuel1 fuel2 =
        some (t1 ++ t2) := by
  obtain ⟨k, rfl⟩ : ∃ k, fuel1 = k + 3 := ⟨fuel1 - 3, by omega⟩
  have e2 : claimLoop (fun n => decide (2 ≤ n)) bal1 nf (k + 1) 2 =
      some [Ev.claim] := by
    rw [claimLoop_succ]; simp
  have e1 : claimLoop (fun n => decide (2 ≤ n)) bal1 nf (k + 2) 1 =
      some (Ev.claim :: Ev.wait 5000 ::
        (oppEvents (decide (0 < bal1 1)) nf ++ [Ev.claim])) := by
    rw [show k + 2 = (k + 1) + 1 from rfl, claimLoop_succ]
    simp [e2]
  have e0 : claimLoop (fun n => decide (2 ≤ n)) bal1 nf (k + 3) 0 =
      some (Ev.claim :: Ev.wait 5000 :: (oppEvents (decide (0 < bal1 0)) nf ++
        (Ev.claim :: Ev.wait 5000 ::
          (oppEvents (decide (0 < bal1 1)) nf ++ [Ev.claim])))) := by
    rw [show k + 3 = (k + 2) + 1 from rfl, claimLoop_succ]
    simp [e1]
  refine ⟨_, e0, ?_, ?_, ?_,
    monitorLoop_no_claim bal2 nf fuel2 0 t2 h2, ?_⟩
  · simp [countEv, List.filter_append, List.filter_cons, isWaitEv,
      oppEvents_filter_wait]
  · intro ms hm
    simp only [List.mem_cons, List.mem_append] at hm
    rcases hm with h | h | h | h | h | h | h
    · exact absurd h (by simp)
    · exact Ev.wait.inj h
    · exact absurd h (oppEvents_wait_not_mem _ _ _)
    · exact absurd h (by simp)
    · exact Ev.wait.inj h
    · exact absurd h (oppEvents_wait_not_mem _ _ _)
    · exact absurd h (by simp)
  · simp [countEv, List.filter_append, List.filter_cons, isClaimEv,
      oppEvents_filter_claim]
  · simp [mainTrace, e0, h2]

/-- Witness for `c7_claim_retry`: zero balance throughout phase 1, the
`0,0,0,42` balance oracle in phase 2, fuel `3` and `4`. -/
theorem c7_claim_retry_witness :
    ∃ t1, claimLoop (fun n => decide (2 ≤ n)) (fun _ => 0) true 3 0 = some t1 ∧
      countEv isWaitEv t1 = 2 ∧
      (∀ ms, Ev.wait ms ∈ t1 → ms = 5000) ∧
      countEv isClaimEv t1 = 3 ∧
      countEv isClaimEv [Ev.checkBalance, Ev.checkBalance, Ev.checkBalance,
        Ev.checkBalance, Ev.sweepToken, Ev.sweepNative true] = 0 ∧
      mainTrace (fun n => decide (2 ≤ n)) (fun _ => 0)
        (fun i => if i < 3 then 0 else 42) true 3 4 =
        some (t1 ++ [Ev.checkBalance, Ev.checkBalance, Ev.checkBalance,
          Ev.checkBalance, Ev.sweepToken, Ev.sweepNative true]) :=
  c7_claim_retry (fun _ => 0) (fun i => if i < 3 then 0 else 42) true 3 4
    [Ev.checkBalance, Ev.checkBalance, Ev.checkBalance, Ev.checkBalance,
      Ev.sweepToken, Ev.sweepNative true] (by decide) (by decide)

/-- C8: against the balance oracle returning `0` on the first three polls
and `42` on the fourth, the monitor loop's trace is exactly four
balance polls followed by one sweep pass (token transfer, then native
transfer), then termination — whatever the native sweep found (`nf`). -/
theorem c8_monitor_sweep (nf : Bool) (fuel : Nat) (h : 4 ≤ fuel) :
    monitorLoop (fun i => if i < 3 then 0 else 42) nf fuel 0 =
      some [Ev.checkBalance, Ev.checkBalance, Ev.checkBalance, Ev.checkBalance,
        Ev.sweepToken, Ev.sweepNative nf] ∧
    countEv isCheckEv [Ev.checkBalance, Ev.checkBalance, Ev.checkBalance,
      Ev.checkBalance, Ev.sweepToken, Ev.sweepNative nf] = 4 ∧
    countEv isSweepTokenEv [Ev.checkBalance, Ev.checkBalance, Ev.checkBalance,
      Ev.checkBalance, Ev.sweepToken, Ev.sweepNative nf] = 1 := by
  obtain ⟨k, rfl⟩ : ∃ k, fuel = k + 4 := ⟨fuel - 4, by omega⟩
  have e3 : monitorLoop (fun i => if i < 3 then 0 else 42) nf (k + 1) 3 =
      some [Ev.checkBalance, Ev.sweepToken, Ev.sweepNative nf] := by
    rw [monitorLoop_succ]; norm_num
  have e2 : monitorLoop (fun i => if i < 3 then 0 else 42) nf (k + 2) 2 =
      some [Ev.checkBalance, Ev.checkBalance, Ev.sweepToken,
        Ev.sweepNative nf] := by
    rw [show k + 2 = (k + 1) + 1 from rfl, monitorLoop_succ]
    norm_num [e3]
  have e1 : monitorLoop (fun i => if i < 3 then 0 else 42) nf (k + 3) 1 =
      some [Ev.checkBalance, Ev.checkBalance, Ev.checkBalance, Ev.sweepToken,
        Ev.sweepNative nf] := by
    rw [show k + 3 = (k + 2) + 1 from rfl, monitorLoop_succ]
    norm_num [e2]
  have e0 : monitorLoop (fun i => if i < 3 then 0 else 42) nf (k + 4) 0 =
      some [Ev.checkBalance, Ev.checkBalance, Ev.checkBalance, Ev.checkBalance,
        Ev.sweepToken, Ev.sweepNative nf] := by
    rw [show k + 4 = (k + 3) + 1 from rfl, monitorLoop_succ]
    norm_num [e1]
  exact ⟨e0, rfl, rfl⟩

/-- Witness for `c8_monitor_sweep` at fuel `4` with a finding native
sweep. -/
theorem c8_monitor_sweep_witness :
    monitorLoop (fun i => if i < 3 then 0 else 42) true 4 0 =
      some [Ev.checkBalance, Ev.checkBalance, Ev.checkBalance, Ev.checkBalance,
        Ev.sweepToken, Ev.sweepNative true] ∧
    countEv isCheckEv [Ev.checkBalance, Ev.checkBalance, Ev.checkBalance,
      Ev.checkBalance, Ev.sweepToken, Ev.sweepNative true] = 4 ∧
    countEv isSweepTokenEv [Ev.checkBalance, Ev.checkBalance, Ev.checkBalance,
      Ev.checkBalance, Ev.sweepToken, Ev.sweepNative true] = 1 :=
  c8_monitor_sweep true 4 (by decide)
